import Mathlib

/-!
Verification development for the Discord bot worker (src/src/index.ts).

The worker receives signed interaction callbacks, verifies them, routes
commands, and for the slow `question` command defers the reply and later
patches the original message through a workflow with a retry policy.

External capabilities (signature verification, JSON parsing, the inference
service, the HTTP fetch used for the follow-up edit) are passed in as
explicit parameters, so every definition below is a pure function of its
inputs, translated clause by clause from the TypeScript source.
-/

namespace DiscordBot

/-- Interaction type discriminators (index.ts, INTERACTION_TYPES). -/
def PING : Nat := 1

/-- Interaction type discriminator for a command invocation. -/
def APPLICATION_COMMAND : Nat := 2

/-- Response type discriminators (index.ts, RESPONSE_TYPES). -/
def PONG : Nat := 1

/-- Response type for a deferred channel message. -/
def DEFERRED_CHANNEL_MESSAGE : Nat := 5

/-- Response type for an immediate channel message. -/
def CHANNEL_MESSAGE : Nat := 4

/-- Discord message length cap (index.ts, MAX_DISCORD_MESSAGE_LENGTH). -/
def MAX_DISCORD_MESSAGE_LENGTH : Nat := 2000

/-- Base URL of the platform API (index.ts, DISCORD_API_BASE). -/
def DISCORD_API_BASE : String := "https://discord.com/api/v10"

/-- One name/value argument pair of a command invocation. The TypeScript
object is produced by an unchecked cast from JSON, so at runtime every field
may be absent; absent fields are modelled as `none`. -/
structure CommandOption where
  name : Option String
  value : Option String
deriving DecidableEq

/-- The `data` field of an interaction: command name plus argument list. -/
structure InteractionData where
  name : Option String
  options : Option (List CommandOption)
deriving DecidableEq

/-- The `user` field of an interaction. -/
structure DiscordUser where
  id : String
  username : String
deriving DecidableEq

/-- A parsed interaction payload (index.ts, DiscordInteraction). -/
structure DiscordInteraction where
  type : Nat
  application_id : String
  token : String
  data : Option InteractionData
  user : Option DiscordUser
deriving DecidableEq

/-- JavaScript falsiness for a value that is a string or absent: absent
values and the empty string are falsy. Used wherever the source tests a
string with `!x` or `x || y`. -/
def jsFalsy : Option String → Bool
  | none => true
  | some s => s.isEmpty

/-- An embed object of an immediate reply. -/
structure Embed where
  title : String
  description : String
  color : Nat
deriving DecidableEq

/-- The `data` field of an interaction response. -/
structure RespData where
  content : String
  embeds : List Embed
deriving DecidableEq

/-- A JSON interaction response payload. -/
structure InteractionResponse where
  type : Nat
  data : Option RespData
deriving DecidableEq

/-- An HTTP response body: plain text, or a JSON interaction response. -/
inductive HttpBody where
  | text (s : String)
  | json (r : InteractionResponse)
deriving DecidableEq

/-- An HTTP response produced by the worker. -/
structure HttpResponse where
  status : Nat
  body : HttpBody
deriving DecidableEq

/-- jsonResponse helper (index.ts): a 200 response carrying a JSON body. -/
def jsonResponse (d : InteractionResponse) : HttpResponse :=
  ⟨200, .json d⟩

/-- A background task registered with the runtime via ctx.waitUntil: it
records the interaction and the question text that processAIResponse will
be run with after the HTTP response has been sent. -/
structure BackgroundTask where
  interaction : DiscordInteraction
  userQuestion : String
deriving DecidableEq

/-- The expression `interaction.data?.options?.[0]?.value`. -/
def firstOptionValue (i : DiscordInteraction) : Option String :=
  ((i.data.bind (fun d => d.options)).bind (fun os => os.head?)).bind
    (fun o => o.value)

/-- handleQuestionCommand (index.ts): a falsy option value yields an
immediate prompt; otherwise the reply is deferred (type 5) and exactly one
background task is registered. -/
def handleQuestionCommand (i : DiscordInteraction) :
    HttpResponse × Option BackgroundTask :=
  let userQuestion := firstOptionValue i
  if jsFalsy userQuestion then
    (jsonResponse ⟨CHANNEL_MESSAGE, some ⟨"Please provide a question!", []⟩⟩,
     none)
  else
    (jsonResponse ⟨DEFERRED_CHANNEL_MESSAGE, none⟩,
     some ⟨i, userQuestion.getD ""⟩)

/-- The expression `interaction.user?.username || 'there'`. -/
def displayName (i : DiscordInteraction) : String :=
  match i.user with
  | none => "there"
  | some u => if u.username.isEmpty then "there" else u.username

/-- The embed attached to the `hello` greeting. -/
def helloEmbed : Embed :=
  ⟨"Discord Bot", "I am your friendly AI-powered Discord bot!", 0x00ffff⟩

/-- handleCommand (index.ts): routes on `interaction.data?.name`. A falsy
name yields the missing-data reply; `question` defers; `hello` greets; any
other name yields the unknown-command reply. Nothing in the body can throw,
so the surrounding try/catch of the source is dead in this model. -/
def handleCommand (i : DiscordInteraction) :
    HttpResponse × Option BackgroundTask :=
  let command := i.data.bind (fun d => d.name)
  if jsFalsy command then
    (jsonResponse ⟨CHANNEL_MESSAGE, some ⟨"Missing command data", []⟩⟩, none)
  else
    let cmd := command.getD ""
    if cmd = "question" then
      handleQuestionCommand i
    else if cmd = "hello" then
      (jsonResponse
        ⟨CHANNEL_MESSAGE,
         some ⟨"Hello " ++ displayName i ++ "! 👋", [helloEmbed]⟩⟩, none)
    else
      (jsonResponse ⟨CHANNEL_MESSAGE, some ⟨"Unknown command: " ++ cmd, []⟩⟩,
       none)

/-- The value `env.AI.run` resolves to, as the source inspects it: not an
object (or null), an object without a `response` field, or an object whose
`response` field carries a string. -/
inductive AIValue where
  | nonObject
  | objWithoutResponse
  | objWithResponse (response : String)
deriving DecidableEq

/-- Outcome of one call to the inference capability: rejection with an
error message, or a resolved value. -/
inductive AIOutcome where
  | throws (msg : String)
  | value (v : AIValue)
deriving DecidableEq

/-- The two-message prompt composed by processAIResponse. -/
def mkMessages (q : String) : List (String × String) :=
  [("system",
    "You are a helpful assistant. Keep your response below " ++
      toString MAX_DISCORD_MESSAGE_LENGTH ++ " characters."),
   ("user", q)]

/-- Fallback content used when a successful inference returns a falsy
response field. -/
def FALLBACK_RESPONSE : String := "Sorry, I couldn't generate a response."

/-- Fixed apology content used on any inference failure. -/
def APOLOGY_MESSAGE : String :=
  "Sorry, I encountered an error while processing your question."

/-- Parameter bundle handed to the workflow (index.ts, Params). -/
structure WorkflowParams where
  application_id : String
  token : String
  content : String
deriving DecidableEq

/-- processAIResponse (index.ts): invokes the inference capability on the
composed prompt; on a well-formed result the workflow is created with the
response text (or the fallback when that text is falsy); on a rejection or
a malformed result shape the error is logged and the workflow is created
with the fixed apology. Returns the created workflow parameters together
with the console.error log entries. -/
def processAIResponse (i : DiscordInteraction) (q : String)
    (runAI : List (String × String) → AIOutcome) :
    WorkflowParams × List String :=
  match runAI (mkMessages q) with
  | .value (.objWithResponse r) =>
      (⟨i.application_id, i.token,
        if r.isEmpty then FALLBACK_RESPONSE else r⟩, [])
  | .throws m =>
      (⟨i.application_id, i.token, APOLOGY_MESSAGE⟩,
       ["Error processing AI response: " ++ m])
  | .value .nonObject =>
      (⟨i.application_id, i.token, APOLOGY_MESSAGE⟩,
       ["Error processing AI response: Invalid AI response format"])
  | .value .objWithoutResponse =>
      (⟨i.application_id, i.token, APOLOGY_MESSAGE⟩,
       ["Error processing AI response: Invalid AI response format"])

/-- Whether an inference outcome takes the catch branch of
processAIResponse. -/
def aiFailed : AIOutcome → Bool
  | .throws _ => true
  | .value .nonObject => true
  | .value .objWithoutResponse => true
  | .value (.objWithResponse _) => false

/-- `s.slice(0, n)` of JavaScript: the first n characters of s. -/
def sliceFirst (s : String) (n : Nat) : String :=
  ⟨s.data.take n⟩

/-- The PATCH request issued by the workflow step body. -/
structure PatchRequest where
  method : String
  url : String
  contentField : String
deriving DecidableEq

/-- The follow-up edit request (index.ts, DiscordWorkflow.run): a PATCH on
the per-interaction original-message resource whose body content is the
task content cut to the first 2000 characters. -/
def editPatchRequest (p : WorkflowParams) : PatchRequest :=
  ⟨"PATCH",
   DISCORD_API_BASE ++ "/webhooks/" ++ p.application_id ++ "/" ++ p.token ++
     "/messages/@original",
   sliceFirst p.content MAX_DISCORD_MESSAGE_LENGTH⟩

/-- Outcome of one fetch of the edit PATCH: network rejection, or an HTTP
response with a status and a body text. -/
inductive FetchOutcome where
  | networkError (msg : String)
  | httpResponse (status : Nat) (body : String)
deriving DecidableEq

/-- `response.ok` of the fetch API: status in the range 200 to 299. -/
def respOk (status : Nat) : Bool :=
  200 ≤ status && status ≤ 299

/-- The value returned by a successful workflow step. -/
structure StepResult where
  status : Nat
  content : String
deriving DecidableEq

/-- The body of the workflow step (index.ts, DiscordWorkflow.run): throws
on a network failure or a non-2xx status, otherwise returns the status and
the untruncated task content. -/
def editStepAttempt (p : WorkflowParams) (o : FetchOutcome) :
    Except String StepResult :=
  match o with
  | .networkError m => .error m
  | .httpResponse st body =>
      if respOk st then .ok ⟨st, p.content⟩
      else .error ("Discord API error (" ++ toString st ++ "): " ++ body)

/-- Whether a step outcome is a success. -/
def stepOk {α : Type} : Except String α → Bool
  | .ok _ => true
  | .error _ => false

/-- Retry limit of the workflow step (index.ts, retries.limit). -/
def RETRY_LIMIT : Nat := 5

/-- Initial retry delay in milliseconds (index.ts, retries.delay). -/
def RETRY_DELAY : Nat := 500

/-- The delay in milliseconds the exponential backoff waits before retry
number j + 1: the initial delay doubled j times. -/
def retryDelayBefore (j : Nat) : Nat :=
  RETRY_DELAY * 2 ^ j

/-- Modelled from the spec: the durable-retry scheduling capability
(spec section 6) that executes the step body declared in
DiscordWorkflow.run. The engine itself is the hosting runtime and is not
part of src; only the policy constants are. It issues attempts strictly
one after the other: attempt k is the k-th evaluation; on failure with
retries remaining it waits the backoff delay and issues the next attempt,
and with no retries remaining it stops. Returns the number of attempts
issued together with the final outcome. -/
def retryExec (attempt : Nat → Except String StepResult) :
    Nat → Nat → Nat × Except String StepResult
  | 0, idx =>
      match attempt idx with
      | .ok v => (1, .ok v)
      | .error e => (1, .error e)
  | r + 1, idx =>
      match attempt idx with
      | .ok v => (1, .ok v)
      | .error _ =>
          let rest := retryExec attempt r (idx + 1)
          (rest.1 + 1, rest.2)

/-- The whole deferred edit task: the step body run under the declared
retry policy, where `outcomes k` is what the k-th fetch of the PATCH
returns. -/
def runEditStep (p : WorkflowParams) (outcomes : Nat → FetchOutcome) :
    Nat × Except String StepResult :=
  retryExec (fun k => editStepAttempt p (outcomes k)) RETRY_LIMIT 0

/-- An inbound HTTP request as the worker reads it: the method, the two
signature headers (absent when missing), and the raw body text. -/
structure WorkerRequest where
  method : String
  sigHeader : Option String
  tsHeader : Option String
  body : String
deriving DecidableEq

/-- What one invocation of the top-level fetch handler produces: the HTTP
response, the background tasks registered with ctx.waitUntil, and the
console.error log entries. Inference and the follow-up edit happen only
inside registered background tasks, so an empty task list means neither
capability is ever invoked for the request. -/
structure FetchResult where
  response : HttpResponse
  tasks : List BackgroundTask
  logs : List String
deriving DecidableEq

/-- The top-level fetch handler (index.ts, default export). `verifies` is
what the signature-verification capability returns on the body and the two
headers; `parsed` is what JSON.parse does to the body: an exception
message, or the interaction object the source casts it to. A parse
exception is caught by the catch clause, which logs it and answers 500
with the exception message appended to the body text. -/
def workerFetch (req : WorkerRequest) (verifies : Bool)
    (parsed : Except String DiscordInteraction) : FetchResult :=
  if req.method ≠ "POST" then
    ⟨⟨405, .text "Method not allowed"⟩, [], []⟩
  else if jsFalsy req.sigHeader || jsFalsy req.tsHeader then
    ⟨⟨401, .text "Missing signature headers"⟩, [], []⟩
  else if !verifies then
    ⟨⟨401, .text "Invalid request signature"⟩, [], []⟩
  else
    match parsed with
    | .error e =>
        ⟨⟨500, .text ("Internal server error: " ++ e)⟩, [],
         ["Error processing request: " ++ e]⟩
    | .ok i =>
        if i.type = PING then
          ⟨jsonResponse ⟨PONG, none⟩, [], []⟩
        else if i.type = APPLICATION_COMMAND then
          let rc := handleCommand i
          ⟨rc.1, rc.2.toList, []⟩
        else
          ⟨⟨400, .text ("Unsupported interaction type: " ++ toString i.type)⟩,
           [], []⟩

/-- Helper: the workflow created by processAIResponse always carries the
application id and token of the interaction, whatever the inference
outcome. -/
theorem processAIResponse_addr (i : DiscordInteraction) (q : String)
    (runAI : List (String × String) → AIOutcome) :
    (processAIResponse i q runAI).1.application_id = i.application_id ∧
    (processAIResponse i q runAI).1.token = i.token := by
  cases h : runAI (mkMessages q) with
  | throws m => simp [processAIResponse, h]
  | value v => cases v <;> simp [processAIResponse, h]

/-- C2: for every deferred task, the content field of the PATCH body sent
to the follow-up edit capability has length at most 2000 and consists of
the first 2000 characters of the task content; content already within the
cap is sent unchanged. -/
theorem C2_edit_content_truncated (p : WorkflowParams) :
    (editPatchRequest p).contentField.length ≤ MAX_DISCORD_MESSAGE_LENGTH ∧
    (editPatchRequest p).contentField.data =
      p.content.data.take MAX_DISCORD_MESSAGE_LENGTH ∧
    (p.content.length ≤ MAX_DISCORD_MESSAGE_LENGTH →
      (editPatchRequest p).contentField = p.content) := by
  refine ⟨?_, rfl, ?_⟩
  · show (p.content.data.take MAX_DISCORD_MESSAGE_LENGTH).length ≤
      MAX_DISCORD_MESSAGE_LENGTH
    rw [List.length_take]
    omega
  · intro h
    have h2 : p.content.data.length ≤ MAX_DISCORD_MESSAGE_LENGTH := h
    show sliceFirst p.content MAX_DISCORD_MESSAGE_LENGTH = p.content
    unfold sliceFirst
    rw [List.take_of_length_le h2]

/-- Witness for C2 at a concrete short content. -/
theorem C2_edit_content_truncated_witness :
    (editPatchRequest ⟨"app", "tok", "hi"⟩).contentField = "hi" :=
  (C2_edit_content_truncated ⟨"app", "tok", "hi"⟩).2.2 (by decide)

/-- C3: for a command invocation named question, a present non-empty first
option value yields the deferred type 5 response and registers exactly one
background task for this interaction, whose eventual workflow carries the
application id and token of the interaction; a falsy (absent or empty)
value yields the immediate prompt and registers no task. -/
theorem C3_question_defers_iff_value (i : DiscordInteraction)
    (hname : i.data.bind (fun d => d.name) = some "question") :
    (∀ q : String, firstOptionValue i = some q → q.isEmpty = false →
       handleCommand i =
         (jsonResponse ⟨DEFERRED_CHANNEL_MESSAGE, none⟩, some ⟨i, q⟩) ∧
       ∀ runAI : List (String × String) → AIOutcome,
         (processAIResponse i q runAI).1.application_id = i.application_id ∧
         (processAIResponse i q runAI).1.token = i.token) ∧
    (jsFalsy (firstOptionValue i) = true →
       handleCommand i =
         (jsonResponse
            ⟨CHANNEL_MESSAGE, some ⟨"Please provide a question!", []⟩⟩,
          none)) := by
  have hjf : jsFalsy (some "question") = false := by decide
  constructor
  · intro q hq hne
    refine ⟨?_, fun runAI => processAIResponse_addr i q runAI⟩
    have hne2 : jsFalsy (some q) = false := by simp [jsFalsy, hne]
    simp [handleCommand, hname, hjf, handleQuestionCommand, hq, hne2]
  · intro hf
    simp [handleCommand, hname, hjf, handleQuestionCommand, hf]

/-- Witness for C3 at a concrete question invocation. -/
theorem C3_question_defers_iff_value_witness :
    handleCommand
        ⟨2, "app", "tok",
         some ⟨some "question", some [⟨some "question", some "hi there"⟩]⟩,
         none⟩ =
      (jsonResponse ⟨DEFERRED_CHANNEL_MESSAGE, none⟩,
       some ⟨⟨2, "app", "tok",
              some ⟨some "question",
                    some [⟨some "question", some "hi there"⟩]⟩,
              none⟩, "hi there"⟩) :=
  ((C3_question_defers_iff_value
      ⟨2, "app", "tok",
       some ⟨some "question", some [⟨some "question", some "hi there"⟩]⟩,
       none⟩ rfl).1 "hi there" rfl (by decide)).1

/-- C4: whenever the inference call fails (rejects, or resolves to a value
that is not an object with a response field), the deferred task still
creates the follow-up edit workflow, its content is the fixed apology, and
the cause goes to the log only. -/
theorem C4_inference_failure_apology (i : DiscordInteraction) (q : String)
    (runAI : List (String × String) → AIOutcome)
    (h : aiFailed (runAI (mkMessages q)) = true) :
    (processAIResponse i q runAI).1 =
      ⟨i.application_id, i.token, APOLOGY_MESSAGE⟩ ∧
    (processAIResponse i q runAI).2 ≠ [] := by
  cases hout : runAI (mkMessages q) with
  | throws m => simp [processAIResponse, hout]
  | value v =>
    cases v with
    | nonObject => simp [processAIResponse, hout]
    | objWithoutResponse => simp [processAIResponse, hout]
    | objWithResponse r => rw [hout] at h; simp [aiFailed] at h

/-- Witness for C4 at a concrete rejected inference call. -/
theorem C4_inference_failure_apology_witness :
    (processAIResponse ⟨2, "app", "tok", none, none⟩ "q"
        (fun _ => .throws "model unavailable")).1 =
      ⟨"app", "tok", APOLOGY_MESSAGE⟩ :=
  (C4_inference_failure_apology ⟨2, "app", "tok", none, none⟩ "q"
    (fun _ => .throws "model unavailable") rfl).1

/-- C8: a POST request missing either signature header is answered 401 and
registers no background task, so neither the inference capability nor the
follow-up edit capability is ever invoked for it. -/
theorem C8_missing_headers_401 (req : WorkerRequest) (verifies : Bool)
    (parsed : Except String DiscordInteraction)
    (hpost : req.method = "POST")
    (h : req.sigHeader = none ∨ req.tsHeader = none) :
    (workerFetch req verifies parsed).response.status = 401 ∧
    (workerFetch req verifies parsed).tasks = [] := by
  have hf : (jsFalsy req.sigHeader || jsFalsy req.tsHeader) = true := by
    rcases h with h | h <;> simp [jsFalsy, h]
  refine ⟨?_, ?_⟩ <;> simp [workerFetch, hpost, hf]

/-- Witness for C8 at a concrete request without a signature header. -/
theorem C8_missing_headers_401_witness :
    (workerFetch ⟨"POST", none, some "ts", "body"⟩ true (.error "e")).response.status = 401 ∧
    (workerFetch ⟨"POST", none, some "ts", "body"⟩ true (.error "e")).tasks = [] :=
  C8_missing_headers_401 ⟨"POST", none, some "ts", "body"⟩ true (.error "e")
    rfl (Or.inl rfl)

/-- C9: a command invocation whose payload lacks a command name is
answered with the 200 JSON missing-command-data message and registers no
background task. -/
theorem C9_missing_command_data (i : DiscordInteraction)
    (h : i.data.bind (fun d => d.name) = none) :
    handleCommand i =
      (jsonResponse ⟨CHANNEL_MESSAGE, some ⟨"Missing command data", []⟩⟩,
       none) ∧
    (handleCommand i).1.status = 200 := by
  constructor <;> simp [handleCommand, h, jsFalsy, jsonResponse]

/-- Witness for C9 at a concrete interaction without data. -/
theorem C9_missing_command_data_witness :
    handleCommand ⟨2, "app", "tok", none, none⟩ =
      (jsonResponse ⟨CHANNEL_MESSAGE, some ⟨"Missing command data", []⟩⟩,
       none) :=
  (C9_missing_command_data ⟨2, "app", "tok", none, none⟩ rfl).1

/-- C10: a successful inference whose response field is falsy (the empty
string) yields the fixed fallback content, so the content handed to the
workflow after a successful inference is never the empty string. -/
theorem C10_falsy_response_fallback (i : DiscordInteraction) (q r : String)
    (runAI : List (String × String) → AIOutcome)
    (h : runAI (mkMessages q) = .value (.objWithResponse r)) :
    ((processAIResponse i q runAI).1.content =
       if r.isEmpty then FALLBACK_RESPONSE else r) ∧
    (r.isEmpty = true →
       (processAIResponse i q runAI).1.content = FALLBACK_RESPONSE) ∧
    (processAIResponse i q runAI).1.content ≠ "" := by
  have hc : (processAIResponse i q runAI).1.content =
      if r.isEmpty then FALLBACK_RESPONSE else r := by
    simp [processAIResponse, h]
  refine ⟨hc, fun he => by simp [hc, he], ?_⟩
  rw [hc]
  intro hcontra
  by_cases he : r.isEmpty = true
  · rw [if_pos he] at hcontra
    exact absurd hcontra (by decide)
  · rw [if_neg he] at hcontra
    subst hcontra
    exact he (by decide)

/-- Witness for C10 at a concrete empty inference response. -/
theorem C10_falsy_response_fallback_witness :
    (processAIResponse ⟨2, "app", "tok", none, none⟩ "q"
        (fun _ => .value (.objWithResponse ""))).1.content =
      FALLBACK_RESPONSE :=
  (C10_falsy_response_fallback ⟨2, "app", "tok", none, none⟩ "q" ""
    (fun _ => .value (.objWithResponse "")) rfl).2.1 rfl

/-- C5 fails as stated: a request whose routing raises an uncaught parse
exception is answered 500, but the body is not only a generic message: it
embeds the exception detail verbatim, so two different exception details
produce two different bodies. -/
theorem C5_counterexample :
    (workerFetch ⟨"POST", some "sig", some "ts", "not json"⟩ true
        (.error "Unexpected token at position 0")).response =
      ⟨500, .text "Internal server error: Unexpected token at position 0"⟩ ∧
    (workerFetch ⟨"POST", some "sig", some "ts", "not json"⟩ true
        (.error "detail A")).response ≠
      (workerFetch ⟨"POST", some "sig", some "ts", "not json"⟩ true
        (.error "detail B")).response := by
  constructor <;> decide

/-- C5 amended: every verified POST request whose routing raises an
uncaught exception is answered 500 with the body consisting of the generic
text followed by the exception detail; the detail is also logged, and no
background task is registered. -/
theorem C5_amended_500_with_detail (req : WorkerRequest) (e : String)
    (hm : req.method = "POST") (hs : jsFalsy req.sigHeader = false)
    (ht : jsFalsy req.tsHeader = false) :
    workerFetch req true (.error e) =
      ⟨⟨500, .text ("Internal server error: " ++ e)⟩, [],
       ["Error processing request: " ++ e]⟩ := by
  simp [workerFetch, hm, hs, ht]

/-- Witness for the amended C5 at a concrete failing parse. -/
theorem C5_amended_500_with_detail_witness :
    workerFetch ⟨"POST", some "s", some "t", "x"⟩ true (.error "boom") =
      ⟨⟨500, .text ("Internal server error: " ++ "boom")⟩, [],
       ["Error processing request: " ++ "boom"]⟩ :=
  C5_amended_500_with_detail ⟨"POST", some "s", some "t", "x"⟩ "boom" rfl
    (by decide) (by decide)

/-- C6 fails as stated: a verified POST request whose body is not valid
JSON is answered 500, not 400, because the parse exception falls through
to the catch clause. -/
theorem C6_counterexample :
    (workerFetch ⟨"POST", some "abc", some "def", "oops"⟩ true
        (.error "Unexpected end of JSON input")).response.status ≠ 400 ∧
    (workerFetch ⟨"POST", some "abc", some "def", "oops"⟩ true
        (.error "Unexpected end of JSON input")).response.status = 500 := by
  constructor <;> decide

/-- C6 amended: for every verified POST request, a body that is not valid
JSON is answered 500, while a body that parses to an interaction whose
type discriminator is neither 1 nor 2 is answered 400. -/
theorem C6_amended_parse_statuses (req : WorkerRequest)
    (hm : req.method = "POST") (hs : jsFalsy req.sigHeader = false)
    (ht : jsFalsy req.tsHeader = false) :
    (∀ e, (workerFetch req true (.error e)).response.status = 500) ∧
    (∀ i : DiscordInteraction, i.type ≠ 1 → i.type ≠ 2 →
       (workerFetch req true (.ok i)).response.status = 400) := by
  constructor
  · intro e
    simp [workerFetch, hm, hs, ht]
  · intro i h1 h2
    simp [workerFetch, hm, hs, ht, PING, APPLICATION_COMMAND, h1, h2]

/-- Witness for the amended C6 at a concrete unsupported type. -/
theorem C6_amended_parse_statuses_witness :
    (workerFetch ⟨"POST", some "k", some "l", "b"⟩ true
        (.ok ⟨3, "app", "tok", none, none⟩)).response.status = 400 :=
  (C6_amended_parse_statuses ⟨"POST", some "k", some "l", "b"⟩ rfl
    (by decide) (by decide)).2 ⟨3, "app", "tok", none, none⟩ (by decide)
    (by decide)

/-- C7 fails as stated: the hello greeting is not the same payload for
every hello invocation, because it interpolates the invoking username; two
hello invocations that differ only in the user field get different
responses. -/
theorem C7_counterexample :
    (handleCommand
        ⟨2, "app", "tok", some ⟨some "hello", none⟩,
         some ⟨"1", "alice"⟩⟩).1 ≠
      (handleCommand
        ⟨2, "app", "tok", some ⟨some "hello", none⟩, none⟩).1 := by
  decide

/-- C7 amended: an unknown command name is answered with the immediate 200
unknown-command message and never a server error; hello is answered with
the immediate greeting that interpolates the invoking username (defaulting
to there), with a fixed embed; neither registers a background task. -/
theorem C7_amended_unknown_and_hello (i : DiscordInteraction) (cmd : String)
    (hname : i.data.bind (fun d => d.name) = some cmd)
    (hne : cmd.isEmpty = false) :
    (cmd ≠ "question" → cmd ≠ "hello" →
       handleCommand i =
         (jsonResponse
            ⟨CHANNEL_MESSAGE, some ⟨"Unknown command: " ++ cmd, []⟩⟩,
          none) ∧
       (handleCommand i).1.status = 200) ∧
    (cmd = "hello" →
       handleCommand i =
         (jsonResponse
            ⟨CHANNEL_MESSAGE,
             some ⟨"Hello " ++ displayName i ++ "! 👋", [helloEmbed]⟩⟩,
          none)) := by
  have hjf : jsFalsy (some cmd) = false := by simp [jsFalsy, hne]
  constructor
  · intro h1 h2
    constructor <;>
      simp [handleCommand, hname, hjf, h1, h2, jsonResponse]
  · intro hh
    subst hh
    simp [handleCommand, hname, hjf]

/-- Witness for the amended C7 at a concrete unknown command. -/
theorem C7_amended_unknown_and_hello_witness :
    handleCommand
        ⟨2, "app", "tok", some ⟨some "frobnicate", none⟩, none⟩ =
      (jsonResponse
         ⟨CHANNEL_MESSAGE, some ⟨"Unknown command: " ++ "frobnicate", []⟩⟩,
       none) :=
  ((C7_amended_unknown_and_hello
      ⟨2, "app", "tok", some ⟨some "frobnicate", none⟩, none⟩ "frobnicate"
      rfl (by decide)).1 (by decide) (by decide)).1

/-- Helper: the retry engine never issues more attempts than one plus the
number of retries it is allowed, so after the retries are exhausted no
further attempt is ever made. -/
theorem retryExec_count_le (attempt : Nat → Except String StepResult) :
    ∀ (r idx : Nat), (retryExec attempt r idx).1 ≤ r + 1 := by
  intro r
  induction r with
  | zero =>
    intro idx
    cases h : attempt idx <;> simp [retryExec, h]
  | succ r ih =>
    intro idx
    cases h : attempt idx with
    | ok v => simp [retryExec, h]
    | error e =>
      have hr := ih (idx + 1)
      simp [retryExec, h]
      omega

/-- Helper: when the first N attempts fail and attempt N succeeds, with N
within the allowed retries, the retry engine issues exactly N + 1 attempts
and ends successfully. -/
theorem retryExec_first_success (attempt : Nat → Except String StepResult) :
    ∀ (N r idx : Nat), N ≤ r →
      (∀ k, k < N → stepOk (attempt (idx + k)) = false) →
      stepOk (attempt (idx + N)) = true →
      (retryExec attempt r idx).1 = N + 1 ∧
      stepOk (retryExec attempt r idx).2 = true := by
  intro N
  induction N with
  | zero =>
    intro r idx _ _ hsucc
    rw [Nat.add_zero] at hsucc
    cases h : attempt idx with
    | ok v => cases r <;> simp [retryExec, h, stepOk]
    | error e => rw [h] at hsucc; simp [stepOk] at hsucc
  | succ N ih =>
    intro r idx hle hfail hsucc
    have h0 : stepOk (attempt idx) = false := by
      have hx := hfail 0 (Nat.succ_pos N)
      rwa [Nat.add_zero] at hx
    cases h : attempt idx with
    | ok v => rw [h] at h0; simp [stepOk] at h0
    | error e =>
      cases r with
      | zero => omega
      | succ r =>
        obtain ⟨h1, h2⟩ := ih r (idx + 1) (by omega)
          (fun k hk => by
            have hx := hfail (k + 1) (by omega)
            have he : idx + (k + 1) = idx + 1 + k := by omega
            rwa [he] at hx)
          (by
            have he : idx + (N + 1) = idx + 1 + N := by omega
            rwa [he] at hsucc)
        constructor
        · simp [retryExec, h]
          omega
        · simp [retryExec, h]
          exact h2

/-- C1: the deferred edit task retries the PATCH under the declared policy
with strictly sequential attempts: if the first N attempts fail with
N below the retry limit and attempt N succeeds, the task ends successfully
having issued exactly N + 1 attempts; the engine never issues more than
limit + 1 attempts, so once the retries are exhausted no further attempt
is made; and the backoff delays start at 500 and strictly increase by
doubling. -/
theorem C1_retry_policy (p : WorkflowParams) (outcomes : Nat → FetchOutcome)
    (N : Nat) (hN : N < 5)
    (hfail : ∀ k, k < N → stepOk (editStepAttempt p (outcomes k)) = false)
    (hsucc : stepOk (editStepAttempt p (outcomes N)) = true) :
    ((runEditStep p outcomes).1 = N + 1 ∧
     stepOk (runEditStep p outcomes).2 = true) ∧
    (∀ outs : Nat → FetchOutcome,
       (runEditStep p outs).1 ≤ RETRY_LIMIT + 1) ∧
    (∀ j, retryDelayBefore j < retryDelayBefore (j + 1)) ∧
    retryDelayBefore 0 = RETRY_DELAY := by
  refine ⟨?_, ?_, ?_, ?_⟩
  · exact retryExec_first_success (fun k => editStepAttempt p (outcomes k))
      N RETRY_LIMIT 0 (show N ≤ 5 by omega)
      (fun k hk => by simpa using hfail k hk)
      (by simpa using hsucc)
  · intro outs
    exact retryExec_count_le (fun k => editStepAttempt p (outs k))
      RETRY_LIMIT 0
  · intro j
    have hp : 0 < (2:Nat) ^ j := Nat.pos_pow_of_pos j (by norm_num)
    simp only [retryDelayBefore, RETRY_DELAY, pow_succ]
    omega
  · simp [retryDelayBefore, RETRY_DELAY]

/-- Witness for C1: two network failures followed by a 200 give three
attempts and success. -/
theorem C1_retry_policy_witness :
    (runEditStep ⟨"app", "tok", "content"⟩
        (fun k => if k < 2 then FetchOutcome.networkError "timeout"
                  else FetchOutcome.httpResponse 200 "")).1 = 2 + 1 ∧
    stepOk (runEditStep ⟨"app", "tok", "content"⟩
        (fun k => if k < 2 then FetchOutcome.networkError "timeout"
                  else FetchOutcome.httpResponse 200 "")).2 = true :=
  (C1_retry_policy ⟨"app", "tok", "content"⟩
    (fun k => if k < 2 then FetchOutcome.networkError "timeout"
              else FetchOutcome.httpResponse 200 "") 2 (by omega)
    (by decide) (by decide)).1

end DiscordBot
